import Mathlib

/-!
Verification of the data-preparation pipeline in src/utils/utils.py
(audio genre-classification dataset preparation).

The 2-D numpy arrays (Mel spectrograms) are modelled as a structure
carrying the two dimensions of the shape together with the entries as a
total function on indices; rational numbers stand for the floating-point
sample and spectrogram values, since none of the verified properties
depend on rounding.  Third-party library calls that compute numeric
transforms (librosa.feature.melspectrogram, librosa.power_to_db) are
parameters of the embedding: every verified property holds for an
arbitrary such transform, and witnesses instantiate them with concrete
functions.  Python exceptions are modelled with Option (none = the call
raised), and the randomness consumed by the augmentation is passed in
explicitly as a list of draws.
-/

/-- A 2-D numeric array as produced by numpy: a shape (rows, cols)
together with the entries.  In this repository rows index frequency bins
and cols index time frames (the Mel spectrogram layout, see the
FixSizeSpectrogram doc string in the source: shape[0] is the height,
frequency). -/
@[ext]
structure Mat where
  rows : Nat
  cols : Nat
  data : Nat → Nat → ℚ

/-- numpy ndarray.copy: a fresh array with the same shape and entries
(models the line spec = spec.copy() in spec_augment). -/
def Mat.copy (m : Mat) : Mat := ⟨m.rows, m.cols, m.data⟩

/-- Python slicing spec[0:H, 0:W] on a 2-D array: numpy clamps the slice
to the array, so the result has shape (min rows H, min cols W) and keeps
the entries of the source at the low indices. -/
def cropMat (H W : Nat) (m : Mat) : Mat := ⟨min m.rows H, min m.cols W, m.data⟩

/-- The body of the loop of FixSizeSpectrogram (src/utils/utils.py lines
157-164): if the shape of the spectrogram differs from the target
(shapes[0], shapes[1]) it is cropped with spec[0:shapes[0], 0:shapes[1]],
otherwise it is appended unchanged. -/
def fixOne (H W : Nat) (s : Mat) : Mat :=
  if ¬ (s.rows = H ∧ s.cols = W) then cropMat H W s else s

/-- FixSizeSpectrogram (src/utils/utils.py lines 139-166).  The loop
appends the (possibly cropped) spectrogram and genres[i] for every index
i of the spectrogram list; Python would raise if the genre list were
shorter, so the embedding keeps the first spectrograms.length genre
entries and the theorems are stated for aligned inputs. -/
def FixSizeSpectrogram (spectrograms : List Mat) (genres : List Int) (H W : Nat) :
    List Mat × List Int :=
  (spectrograms.map (fixOne H W), genres.take spectrograms.length)

/-- One round of random draws consumed by spec_augment: the two values
produced by random.uniform (freq_percentage, time_percentage) and the two
values produced by np.random.uniform after truncation with int()
(the band starts f0 and t0). -/
structure Draw where
  fp : ℚ
  f0 : Nat
  tp : ℚ
  t0 : Nat
deriving DecidableEq

/-- num_freqs_to_mask = int(freq_percentage * all_freqs_num)
(src/utils/utils.py line 280).  Python int() truncates toward zero; the
percentages drawn by random.uniform are nonnegative, where truncation and
floor agree. -/
def numFreqsToMask (fp : ℚ) (n : Nat) : Nat := (Int.floor (fp * n)).toNat

/-- num_frames_to_mask = int(time_percentage * all_frames_num)
(src/utils/utils.py line 287). -/
def numFramesToMask (tp : ℚ) (n : Nat) : Nat := (Int.floor (tp * n)).toNat

/-- Row r lies in the band of rows zeroed by spec[t0:t0+num_frames_to_mask, :]
for draw d on an array with R rows. -/
def inBandRow (d : Draw) (R r : Nat) : Bool :=
  decide (d.t0 ≤ r) && decide (r < d.t0 + numFramesToMask d.tp R)

/-- Column c lies in the band of columns zeroed by
spec[:, f0:f0+num_freqs_to_mask] for draw d on an array with C columns. -/
def inBandCol (d : Draw) (C c : Nat) : Bool :=
  decide (d.f0 ≤ c) && decide (c < d.f0 + numFreqsToMask d.fp C)

/-- One iteration of the loop of spec_augment (src/utils/utils.py lines
276-290): all_frames_num, all_freqs_num = spec.shape, then
spec[:, f0:f0+num_freqs_to_mask] = 0 followed by
spec[t0:t0+num_frames_to_mask, :] = 0.  Both assignments write zeros, the
row band on top of the column band. -/
def maskRound (d : Draw) (m : Mat) : Mat :=
  ⟨m.rows, m.cols, fun r c =>
    if inBandRow d m.rows r then 0
    else if inBandCol d m.cols c then 0
    else m.data r c⟩

/-- The cell (r, c) is covered by some zeroed row band or column band of
one of the draws, on an array of shape (R, C). -/
def coveredB (draws : List Draw) (R C r c : Nat) : Bool :=
  draws.any (fun d => inBandRow d R r || inBandCol d C c)

/-- spec_augment (src/utils/utils.py lines 272-292): copy the input
array, then run num_mask masking rounds.  The randomness is supplied
explicitly: one Draw per round, so draws.length plays the role of
num_mask (default 2). -/
def spec_augment (draws : List Draw) (spec : Mat) : Mat :=
  draws.foldl (fun s d => maskRound d s) spec.copy

/-- Validity of one round of draws for an array of shape (R, C), exactly
the ranges guaranteed by the calls to random.uniform(0.0, p_max) and
int(np.random.uniform(low=0.0, high=dim - width)) in the source. -/
abbrev DrawValid (R C : Nat) (d : Draw) : Prop :=
  0 ≤ d.fp ∧ d.fp ≤ 3 / 20 ∧ 0 ≤ d.tp ∧ d.tp ≤ 1 / 4 ∧
  d.f0 + numFreqsToMask d.fp C ≤ C ∧ d.t0 + numFramesToMask d.tp R ≤ R

/-- DataSpecAugmentation (src/utils/utils.py lines 255-268): build one
augmented variant per element of spec_list together with its genre, then
extend both lists in place (modelled as returning the extended lists).
The randomness is one list of draws per element; genre_augment collects
genres_list[i] for every index i of spec_list (Python raises when the
genre list is shorter, so the embedding takes the first
spec_list.length entries and the theorems are stated for aligned
inputs). -/
def DataSpecAugmentation (augs : List (List Draw)) (spec_list : List Mat)
    (genres_list : List Int) : List Mat × List Int :=
  let new_spec := List.zipWith spec_augment augs spec_list
  let genre_augment := genres_list.take spec_list.length
  (spec_list ++ new_spec, genres_list ++ genre_augment)

/-- The fixed genre dictionary of LoadDataPipeline (src/utils/utils.py
lines 230-231), kept in source order. -/
def genre_dict : List (String × Nat) :=
  [("Electronic", 0), ("Experimental", 1), ("Folk", 2), ("Hip-Hop", 3),
   ("Instrumental", 4), ("International", 5), ("Pop", 6), ("Rock", 7)]

/-- Run a fallible per-item computation over a list, stopping at the
first failure, exactly as a Python for-loop whose body may raise: the
loop produces the list of results, and any raise aborts the whole call
(models the loops of GetGenres and ChargeDataset). -/
def tryAll (f : α → Option β) : List α → Option (List β)
  | [] => some []
  | a :: as => do
    let b ← f a
    let bs ← tryAll f as
    pure (b :: bs)

/-- GetGenres (src/utils/utils.py lines 21-43).  The directory is
modelled as the list of track identifiers parsed from the file names
(str(direc)[-10:-4]); the tracks dataframe as an association list from
track identifier to top genre (tracks.loc[tracks.track_id == id,
genre_top].values[0] raises IndexError when the identifier is absent,
modelled as none); dict_genre[g] raises KeyError when the genre string is
absent from the dictionary, modelled as none.  Returns the identifier
list paired with the encoded genre list. -/
def GetGenres (dict_genre : List (String × Nat)) (tracks : List (String × String))
    (files : List String) : Option (List String × List Nat) :=
  (tryAll (fun id => (tracks.lookup id).bind (fun g => dict_genre.lookup g)) files).map
    (fun gs => (files, gs))

/-- One raw audio file as seen by CreateSpectrograms: the track
identifier parsed from the file name, the outcome of librosa.load
(none = the decode raised; the waveform is modelled as a list of
channels, each a list of samples), and whether torch.save succeeds. -/
structure AudioFile where
  id : String
  decode : Option (List (List ℚ))
  saveOk : Bool
deriving DecidableEq

/-- (waveform[0] + waveform[1]) / 2 (src/utils/utils.py line 64): the
elementwise average of the first two channels. -/
def channelAvg (w : List (List ℚ)) : List ℚ :=
  List.zipWith (fun a b => (a + b) / 2) (w.getD 0 []) (w.getD 1 [])

/-- The body of the try block of CreateSpectrograms (src/utils/utils.py
lines 60-68) for one file, parameterized by the Mel spectrogram transform
mel (librosa.feature.melspectrogram with n_fft = 2048, hop_length = 512).
Faithful to the source order: the spectrogram is computed from the
decoded waveform first; the channel-averaging reassignment of waveform on
lines 63-64 happens afterwards and its value is never used; then the
spectrogram is saved under the track identifier.  Returns none when the
decode or the save raises (the except branch swallows the error). -/
def tryProcessFile (mel : List (List ℚ) → Mat) (f : AudioFile) :
    Option (String × Mat) :=
  match f.decode with
  | none => none
  | some waveform =>
    let spec := mel waveform
    let _waveform2 := if waveform.length > 1 then [channelAvg waveform] else waveform
    if f.saveOk then some (f.id, spec) else none

/-- CreateSpectrograms (src/utils/utils.py lines 47-68): iterate over
the files of the load directory; each file is processed inside
try/except: pass, so a failing file is skipped silently and the loop
continues.  The side effect on the save directory is modelled as the
list of saved artifacts (identifier, spectrogram) in iteration order. -/
def CreateSpectrograms (mel : List (List ℚ) → Mat) (files : List AudioFile) :
    List (String × Mat) :=
  files.foldl (fun acc f =>
    match tryProcessFile mel f with
    | some a => acc ++ [a]
    | none => acc) []

/-- librosa.power_to_db applied elementwise to an array, parameterized by
the scalar decibel conversion db. -/
def powerToDbMat (db : ℚ → ℚ) (m : Mat) : Mat :=
  ⟨m.rows, m.cols, fun r c => db (m.data r c)⟩

/-- genre_list[np.argwhere(id_list == id_track)][0][0] (src/utils/utils.py
line 88): the first index of id_list holding id_track selects the entry
of genre_list at that position; an identifier with no occurrence makes
the [0] indexing of the empty argwhere result raise IndexError, and a
position beyond genre_list raises as well — both modelled as none. -/
def findGenre (id_list : List String) (genre_list : List Int) (id_track : String) :
    Option Int :=
  (id_list.findIdx? (fun t => t == id_track)).bind (fun j => genre_list[j]?)

/-- The body of the loop of ChargeDataset (src/utils/utils.py lines
86-92) for one persisted artifact (identifier, stored spectrogram): look
up the genre at the position of the identifier, load the array and
convert it to decibels. -/
def chargeOne (db : ℚ → ℚ) (id_list : List String) (genre_list : List Int)
    (art : String × Mat) : Option (Mat × Int) :=
  (findGenre id_list genre_list art.1).map (fun g => (powerToDbMat db art.2, g))

/-- ChargeDataset (src/utils/utils.py lines 70-94): the loop over the
persisted artifacts, where a failing lookup raises and aborts the whole
call (no recovery, no skipping).  Artifacts are modelled as (identifier,
stored array) pairs, the identifier standing for str(spec)[18:-3]. -/
def ChargeDataset (db : ℚ → ℚ) (artifacts : List (String × Mat))
    (id_list : List String) (genre_list : List Int) : Option (List (Mat × Int)) :=
  tryAll (chargeOne db id_list genre_list) artifacts

/-- The extraction stage of LoadDataPipeline (src/utils/utils.py lines
235-238): CreateSpectrograms runs iff the save directory does not already
hold exactly 7994 artifacts.  Returns the artifact set together with the
flag recording whether extraction was invoked. -/
def LoadDataPipelineExtract (mel : List (List ℚ) → Mat) (audioFiles : List AudioFile)
    (existing : List (String × Mat)) : List (String × Mat) × Bool :=
  if existing.length ≠ 7994 then (CreateSpectrograms mel audioFiles, true)
  else (existing, false)

/-! Concrete instances used by the witnesses and the counterexample. -/

/-- A concrete Mel transform used by the witnesses: it returns the
waveform itself as a matrix (channels × samples), so it distinguishes
waveforms with different channel counts. -/
def mel0 : List (List ℚ) → Mat :=
  fun w => ⟨w.length, (w.getD 0 []).length, fun r c => (w.getD r []).getD c 0⟩

/-- A concrete two-channel waveform: two channels of two samples each. -/
def stereoWave : List (List ℚ) := [[0, 0], [2, 2]]

/-- A file decoding to the two-channel waveform, with saving succeeding. -/
def fileStereo : AudioFile := ⟨"000123", some stereoWave, true⟩

/-- A file that decodes successfully. -/
def fGood : AudioFile := ⟨"000002", some [[1, 2]], true⟩

/-- A file whose decode raises. -/
def fBad : AudioFile := ⟨"000404", none, true⟩

/-- The waveform of the second successful file. -/
def wav777 : List (List ℚ) := [[5]]

/-- A second file that decodes successfully, after the failing one. -/
def fGood2 : AudioFile := ⟨"000777", some wav777, true⟩

/-- A batch with a failure strictly between two successes. -/
def files0 : List AudioFile := [fGood, fBad, fGood2]

/-- A 20 × 20 all-ones spectrogram (20 frequency bins, 20 time frames). -/
def onesMat20 : Mat := ⟨20, 20, fun _ _ => 1⟩

/-- A draw whose time percentage is the maximal 25 percent. -/
def drawQuarter : Draw := ⟨0, 0, 1 / 4, 0⟩

/-- A draw masking nothing. -/
def drawZero : Draw := ⟨0, 0, 0, 0⟩

/-- A small 4 × 4 spectrogram. -/
def mat4 : Mat := ⟨4, 4, fun r c => (r : ℚ) + c⟩

/-- Two valid rounds of draws for a 4 × 4 spectrogram. -/
def draws4 : List Draw := [⟨1 / 10, 1, 1 / 5, 0⟩, ⟨0, 0, 0, 0⟩]

/-- A 3 × 4 spectrogram. -/
def matA : Mat := ⟨3, 4, fun _ _ => 2⟩

/-- A 2 × 3 spectrogram. -/
def matB : Mat := ⟨2, 3, fun r c => (r : ℚ) * 10 + c⟩

/-- A heterogeneous spectrogram list for the shape normalization witnesses. -/
def specsW : List Mat := [matA, matB]

/-- Genres matching specsW. -/
def genresW : List Int := [0, 7]

/-- The identity decibel conversion used by witnesses. -/
def ratId : ℚ → ℚ := fun q => q

/-- A 1 × 1 stored spectrogram. -/
def matS : Mat := ⟨1, 1, fun _ _ => 4⟩

/-- Track identifiers for the loader witnesses. -/
def idA : String := "000002"

/-- A second track identifier. -/
def idB : String := "000005"

/-- An identifier absent from the identifier sequence. -/
def idC : String := "000009"

/-- A track identifier used by the genre-resolver witness. -/
def trackIdW : String := "000140"

/-- The identifier sequence of the loader witnesses. -/
def ids0 : List String := [idA, idB]

/-- The genre sequence of the loader witnesses. -/
def genres0 : List Int := [3, 7]

/-- An artifact list whose identifier occurs in ids0. -/
def artsGood : List (String × Mat) := [(idA, matS)]

/-- An artifact list whose identifier does not occur in ids0. -/
def artsBad : List (String × Mat) := [(idC, matS)]

/-- Draw lists for the augmentation witnesses, one per element of specsW. -/
def augsW : List (List Draw) := [[drawZero, drawZero], [drawZero, drawZero]]

/-! Helper lemmas. -/

/-- A Python loop whose body raises on some processed item aborts the
whole call. -/
theorem tryAll_eq_none {α β : Type} (f : α → Option β) (l : List α) (a : α)
    (ha : a ∈ l) (hfa : f a = none) : tryAll f l = none := by
  induction l with
  | nil => cases ha
  | cons x xs ih =>
    rcases List.mem_cons.mp ha with rfl | h
    · simp [tryAll, hfa]
    · cases hfx : f x with
      | none => simp [tryAll, hfx]
      | some b => simp [tryAll, hfx, ih h]

/-- A successful tryAll run returns one result per item, each produced by
the per-item computation, in order. -/
theorem tryAll_eq_some {α β : Type} (f : α → Option β) :
    ∀ (l : List α) (res : List β), tryAll f l = some res →
      res.length = l.length ∧
      ∀ i (hi : i < l.length), ∃ b, f (l.get ⟨i, hi⟩) = some b ∧ res[i]? = some b := by
  intro l
  induction l with
  | nil =>
    intro res h
    simp only [tryAll, Option.some.injEq] at h
    subst h
    exact ⟨rfl, fun i hi => absurd hi (Nat.not_lt_zero i)⟩
  | cons x xs ih =>
    intro res h
    cases hfx : f x with
    | none => rw [tryAll, hfx] at h; simp at h
    | some b =>
      cases hxs : tryAll f xs with
      | none => rw [tryAll, hfx, hxs] at h; simp at h
      | some bs =>
        rw [tryAll, hfx, hxs] at h
        simp at h
        subst h
        obtain ⟨hlen, hpt⟩ := ih bs hxs
        refine ⟨by simp [hlen], ?_⟩
        intro i hi
        cases i with
        | zero => exact ⟨b, hfx, by simp⟩
        | succ j =>
          obtain ⟨c, hc1, hc2⟩ := hpt j (Nat.lt_of_succ_lt_succ hi)
          exact ⟨c, hc1, by simpa using hc2⟩

/-- Association-list lookup of a key that occurs nowhere returns none. -/
theorem lookup_eq_none_of_not_mem {β : Type} (l : List (String × β)) (s : String)
    (hs : s ∉ l.map Prod.fst) : l.lookup s = none := by
  induction l with
  | nil => rfl
  | cons p t ih =>
    simp only [List.map_cons, List.mem_cons, not_or] at hs
    obtain ⟨h1, h2⟩ := hs
    have hb : (s == p.1) = false := beq_eq_false_iff_ne.mpr h1
    rw [List.lookup_cons, hb]
    exact ih h2

/-- findIdx? with an equality test for an absent element returns none,
whatever the start index. -/
theorem findIdx?_eq_none_of_not_mem (l : List String) (s : String)
    (hs : s ∉ l) : ∀ i : Nat, l.findIdx? (fun t => t == s) i = none := by
  induction l with
  | nil => intro i; rfl
  | cons x xs ih =>
    intro i
    simp only [List.mem_cons, not_or] at hs
    obtain ⟨h1, h2⟩ := hs
    have hb : (x == s) = false := beq_eq_false_iff_ne.mpr (Ne.symm h1)
    rw [List.findIdx?_cons, hb]
    simpa using ih h2 (i + 1)

/-- The saving loop of CreateSpectrograms accumulates exactly the
successfully processed files, in order, independently of the accumulator. -/
theorem createSpectrograms_foldl (mel : List (List ℚ) → Mat) :
    ∀ (files : List AudioFile) (acc : List (String × Mat)),
      files.foldl (fun acc f =>
        match tryProcessFile mel f with
        | some a => acc ++ [a]
        | none => acc) acc = acc ++ files.filterMap (tryProcessFile mel) := by
  intro files
  induction files with
  | nil => intro acc; simp
  | cons f fs ih =>
    intro acc
    cases hf : tryProcessFile mel f with
    | none => simp only [List.foldl_cons, hf, List.filterMap_cons_none hf]; exact ih acc
    | some a =>
      simp only [List.foldl_cons, hf, List.filterMap_cons_some hf]
      rw [ih (acc ++ [a])]
      simp

/-- Truncating a product by a percentage bounded by q yields at most the
q-fraction of n. -/
theorem toNatFloor_mul_le (p q : ℚ) (n : Nat) (h0 : 0 ≤ p) (h : p ≤ q) :
    (((Int.floor (p * n)).toNat : Nat) : ℚ) ≤ q * n := by
  have h0n : (0 : ℚ) ≤ p * n := mul_nonneg h0 (by positivity)
  have hfl : (0 : Int) ≤ Int.floor (p * n) := Int.floor_nonneg.mpr h0n
  have h1 : (((Int.floor (p * n)).toNat : Nat) : ℚ) = ((Int.floor (p * n) : Int) : ℚ) := by
    exact_mod_cast Int.toNat_of_nonneg hfl
  rw [h1]
  exact le_trans (Int.floor_le _) (mul_le_mul_of_nonneg_right h (Nat.cast_nonneg n))

/-- Unfolding of band coverage for one more round of draws. -/
theorem coveredB_cons (d : Draw) (ds : List Draw) (R C r c : Nat) :
    coveredB (d :: ds) R C r c =
      ((inBandRow d R r || inBandCol d C c) || coveredB ds R C r c) := by
  simp [coveredB, List.any_cons]

/-- The masking fold zeroes exactly the cells covered by some band of the
draws and preserves every other cell, as well as the shape. -/
theorem maskFold_spec (ds : List Draw) :
    ∀ a : Mat,
      (ds.foldl (fun s d => maskRound d s) a).rows = a.rows ∧
      (ds.foldl (fun s d => maskRound d s) a).cols = a.cols ∧
      ∀ r c, (ds.foldl (fun s d => maskRound d s) a).data r c =
        if coveredB ds a.rows a.cols r c then 0 else a.data r c := by
  induction ds with
  | nil =>
    intro a
    refine ⟨rfl, rfl, ?_⟩
    intro r c
    simp [coveredB]
  | cons d ds ih =>
    intro a
    obtain ⟨h1, h2, h3⟩ := ih (maskRound d a)
    refine ⟨h1, h2, ?_⟩
    intro r c
    rw [List.foldl_cons]
    rw [h3 r c]
    show (if coveredB ds a.rows a.cols r c then 0 else (maskRound d a).data r c) =
      if coveredB (d :: ds) a.rows a.cols r c then 0 else a.data r c
    rw [coveredB_cons]
    cases hbr : inBandRow d a.rows r <;> cases hbc : inBandCol d a.cols c <;>
      cases hcv : coveredB ds a.rows a.cols r c <;>
      simp [maskRound, hbr, hbc, hcv]

/-- Cropping absorbs the shape test of FixSizeSpectrogram: the branch
keeping an already-matching spectrogram returns the same array as the
crop, since slicing at the full shape changes nothing. -/
theorem fixOne_eq_crop (H W : Nat) (s : Mat) : fixOne H W s = cropMat H W s := by
  unfold fixOne
  by_cases h : s.rows = H ∧ s.cols = W
  · rw [if_neg (not_not_intro h)]
    obtain ⟨h1, h2⟩ := h
    exact Mat.ext (by simp [cropMat, h1]) (by simp [cropMat, h2]) rfl
  · rw [if_pos h]

/-- Claim C3: when every input spectrogram has at least shapes[0] rows
and shapes[1] columns, every spectrogram output by FixSizeSpectrogram
has shape exactly (shapes[0], shapes[1]). -/
theorem FixSizeSpectrogram_target_shape (specs : List Mat) (genres : List Int)
    (H W : Nat) (h : ∀ s ∈ specs, H ≤ s.rows ∧ W ≤ s.cols) :
    ∀ m ∈ (FixSizeSpectrogram specs genres H W).1, m.rows = H ∧ m.cols = W := by
  intro m hm
  obtain ⟨s, hs, rfl⟩ := List.mem_map.mp hm
  obtain ⟨h1, h2⟩ := h s hs
  rw [fixOne_eq_crop]
  exact ⟨Nat.min_eq_right h1, Nat.min_eq_right h2⟩

/-- Witness for C3 at a concrete pair of spectrograms of shapes (3, 4)
and (2, 3) with target shape (2, 3). -/
theorem FixSizeSpectrogram_target_shape_witness :
    (∀ s ∈ specsW, 2 ≤ s.rows ∧ 3 ≤ s.cols) ∧
    ∀ m ∈ (FixSizeSpectrogram specsW genresW 2 3).1, m.rows = 2 ∧ m.cols = 3 :=
  ⟨by decide, FixSizeSpectrogram_target_shape specsW genresW 2 3 (by decide)⟩

/-- Claim C4: FixSizeSpectrogram preserves order and length, the output
at index i is the input at index i restricted to its first shapes[0] rows
and shapes[1] columns, the output label at index i is the input label at
index i, and an input whose shape already matches the target is returned
unchanged (the crop is the identity on it). -/
theorem FixSizeSpectrogram_pointwise (specs : List Mat) (genres : List Int)
    (H W : Nat) (hg : genres.length = specs.length) :
    ((FixSizeSpectrogram specs genres H W).1.length = specs.length) ∧
    ((FixSizeSpectrogram specs genres H W).2.length = genres.length) ∧
    (∀ i : Nat, ((FixSizeSpectrogram specs genres H W).1)[i]? =
      (specs[i]?).map (cropMat H W)) ∧
    (∀ i : Nat, ((FixSizeSpectrogram specs genres H W).2)[i]? = genres[i]?) ∧
    (∀ s : Mat, s.rows = H → s.cols = W → cropMat H W s = s) := by
  have hfix : fixOne H W = cropMat H W := funext (fixOne_eq_crop H W)
  refine ⟨?_, ?_, ?_, ?_, ?_⟩
  · simp [FixSizeSpectrogram]
  · simp only [FixSizeSpectrogram, List.length_take]
    omega
  · intro i
    show (specs.map (fixOne H W))[i]? = (specs[i]?).map (cropMat H W)
    rw [List.getElem?_map, hfix]
  · intro i
    show (genres.take specs.length)[i]? = genres[i]?
    by_cases hi : i < specs.length
    · exact List.getElem?_take_of_lt hi
    · have ha : (genres.take specs.length)[i]? = none :=
        List.getElem?_eq_none (by simp [List.length_take]; omega)
      have hb : genres[i]? = none := List.getElem?_eq_none (by omega)
      rw [ha, hb]
  · intro s h1 h2
    exact Mat.ext (by simp [cropMat, h1]) (by simp [cropMat, h2]) rfl

/-- Witness for C4 at the concrete lists specsW, genresW with target
shape (2, 3). -/
theorem FixSizeSpectrogram_pointwise_witness :
    (genresW.length = specsW.length) ∧
    (((FixSizeSpectrogram specsW genresW 2 3).1.length = specsW.length) ∧
     ((FixSizeSpectrogram specsW genresW 2 3).2.length = genresW.length) ∧
     (∀ i : Nat, ((FixSizeSpectrogram specsW genresW 2 3).1)[i]? =
       (specsW[i]?).map (cropMat 2 3)) ∧
     (∀ i : Nat, ((FixSizeSpectrogram specsW genresW 2 3).2)[i]? = genresW[i]?) ∧
     (∀ s : Mat, s.rows = 2 → s.cols = 3 → cropMat 2 3 s = s)) :=
  ⟨by decide, FixSizeSpectrogram_pointwise specsW genresW 2 3 (by decide)⟩

/-- Claim C5: with aligned inputs, DataSpecAugmentation doubles the
spectrogram list, keeping the originals as the first half in order,
appending one augmented variant per original in the same order as the
second half, and extends the label list with a copy of itself, so each
augmented spectrogram carries the label of its source. -/
theorem DataSpecAugmentation_doubles (augs : List (List Draw)) (specs : List Mat)
    (genres : List Int) (ha : augs.length = specs.length)
    (hg : genres.length = specs.length) :
    ((DataSpecAugmentation augs specs genres).1.length = 2 * specs.length) ∧
    ((DataSpecAugmentation augs specs genres).1.take specs.length = specs) ∧
    ((DataSpecAugmentation augs specs genres).1.drop specs.length =
      List.zipWith spec_augment augs specs) ∧
    ((DataSpecAugmentation augs specs genres).2 = genres ++ genres) ∧
    ((DataSpecAugmentation augs specs genres).2.length = 2 * genres.length) := by
  have hzl : (List.zipWith spec_augment augs specs).length = specs.length := by
    rw [List.length_zipWith, ha, Nat.min_self]
  refine ⟨?_, ?_, ?_, ?_, ?_⟩
  · simp only [DataSpecAugmentation, List.length_append, hzl]
    omega
  · exact List.take_left specs _
  · exact List.drop_left specs _
  · show genres ++ genres.take specs.length = genres ++ genres
    rw [← hg, List.take_length]
  · show (genres ++ genres.take specs.length).length = 2 * genres.length
    rw [← hg, List.take_length, List.length_append]
    omega

/-- Witness for C5 at the concrete lists augsW, specsW, genresW. -/
theorem DataSpecAugmentation_doubles_witness :
    (augsW.length = specsW.length) ∧ (genresW.length = specsW.length) ∧
    (((DataSpecAugmentation augsW specsW genresW).1.length = 2 * specsW.length) ∧
     ((DataSpecAugmentation augsW specsW genresW).1.take specsW.length = specsW) ∧
     ((DataSpecAugmentation augsW specsW genresW).1.drop specsW.length =
       List.zipWith spec_augment augsW specsW) ∧
     ((DataSpecAugmentation augsW specsW genresW).2 = genresW ++ genresW) ∧
     ((DataSpecAugmentation augsW specsW genresW).2.length = 2 * genresW.length)) :=
  ⟨rfl, rfl, DataSpecAugmentation_doubles augsW specsW genresW rfl rfl⟩

/-- Claim C9: the pipeline skips extraction exactly when the destination
directory already holds 7994 artifacts; for any other count
CreateSpectrograms is invoked. -/
theorem LoadDataPipelineExtract_guard (mel : List (List ℚ) → Mat)
    (files : List AudioFile) (existing : List (String × Mat)) :
    ((LoadDataPipelineExtract mel files existing).2 = false ↔
      existing.length = 7994) ∧
    ((LoadDataPipelineExtract mel files existing).2 = true ↔
      existing.length ≠ 7994) ∧
    (existing.length = 7994 →
      LoadDataPipelineExtract mel files existing = (existing, false)) ∧
    (existing.length ≠ 7994 →
      LoadDataPipelineExtract mel files existing =
        (CreateSpectrograms mel files, true)) := by
  by_cases h : existing.length = 7994 <;> simp [LoadDataPipelineExtract, h]

/-- Witness for C9: an empty destination directory triggers extraction. -/
theorem LoadDataPipelineExtract_guard_witness :
    (([] : List (String × Mat)).length ≠ 7994) ∧
    LoadDataPipelineExtract mel0 files0 [] = (CreateSpectrograms mel0 files0, true) :=
  ⟨by decide, (LoadDataPipelineExtract_guard mel0 files0 []).2.2.2 (by decide)⟩

/-- Claim C10: DataSpecAugmentation never alters the original entries:
the first half of the returned spectrogram list is the input list with
unchanged values (spec_augment masks a copy), the original labels are
likewise preserved, and only the appended second half is new. -/
theorem DataSpecAugmentation_preserves_originals (augs : List (List Draw))
    (specs : List Mat) (genres : List Int) :
    ((DataSpecAugmentation augs specs genres).1.take specs.length = specs) ∧
    ((DataSpecAugmentation augs specs genres).2.take genres.length = genres) ∧
    ((DataSpecAugmentation augs specs genres).1.drop specs.length =
      List.zipWith spec_augment augs specs) := by
  refine ⟨List.take_left specs _, ?_, List.drop_left specs _⟩
  show (genres ++ genres.take specs.length).take genres.length = genres
  exact List.take_left genres _

/-- Claim C1 (code evidence): in CreateSpectrograms the saved artifact is
the Mel spectrogram of the waveform exactly as decoded — here a
two-channel waveform — and not the spectrogram of the mono average of the
two channels: the channel-averaging assignment executes after the
spectrogram has been computed and its value is never used, so with a Mel
transform that distinguishes channel counts the two disagree. -/
theorem CreateSpectrograms_downmix_after_spectrogram :
    (tryProcessFile mel0 fileStereo = some ("000123", mel0 stereoWave)) ∧
    (channelAvg stereoWave = [1, 1]) ∧
    (mel0 [channelAvg stereoWave] ≠ mel0 stereoWave) ∧
    (CreateSpectrograms mel0 [fileStereo] = [("000123", mel0 stereoWave)]) := by
  refine ⟨rfl, ?_, ?_, rfl⟩
  · show List.zipWith (fun a b => (a + b) / 2)
      (stereoWave.getD 0 []) (stereoWave.getD 1 []) = [1, 1]
    norm_num [stereoWave]
  · intro h
    have h2 := congrArg Mat.rows h
    simp [mel0, stereoWave] at h2

/-- Claim C6: the fixed genre dictionary maps the 8 vocabulary strings,
in source order, to the distinct integers 0 to 7, and looking up any
string outside the vocabulary raises (returns none) — both for the bare
dictionary lookup and for the encoding performed inside GetGenres — so an
unknown genre never maps to a default. -/
theorem genre_dict_total_encoding (s : String) (hs : s ∉ genre_dict.map Prod.fst) :
    (genre_dict.map Prod.fst = ["Electronic", "Experimental", "Folk", "Hip-Hop",
      "Instrumental", "International", "Pop", "Rock"]) ∧
    (genre_dict.map Prod.snd = [0, 1, 2, 3, 4, 5, 6, 7]) ∧
    ((genre_dict.map Prod.snd).Nodup) ∧
    (genre_dict.lookup s = none) ∧
    (∀ (tracks : List (String × String)) (files : List String) (id : String),
      id ∈ files → tracks.lookup id = some s →
      GetGenres genre_dict tracks files = none) := by
  refine ⟨rfl, rfl, by decide, lookup_eq_none_of_not_mem genre_dict s hs, ?_⟩
  intro tracks files id hid htr
  unfold GetGenres
  rw [tryAll_eq_none _ files id hid
    (by rw [htr]; exact lookup_eq_none_of_not_mem genre_dict s hs)]
  rfl

/-- Witness for C6 at the unknown genre string Jazz. -/
theorem genre_dict_total_encoding_witness :
    (("Jazz" : String) ∉ genre_dict.map Prod.fst) ∧
    (genre_dict.lookup ("Jazz" : String) = none) ∧
    (GetGenres genre_dict [(trackIdW, "Jazz")] [trackIdW] = none) := by
  have hs : ("Jazz" : String) ∉ genre_dict.map Prod.fst := by decide
  have h := genre_dict_total_encoding ("Jazz" : String) hs
  exact ⟨hs, h.2.2.2.1, h.2.2.2.2 [(trackIdW, "Jazz")] [trackIdW] trackIdW
    (List.mem_cons_self _ _) (by decide)⟩

/-- Claim C7: CreateSpectrograms is best-effort: it equals the
per-file filterMap of the fallible single-file processing, so it never
raises, every failing file is skipped while the remaining files are still
processed, every succeeding file contributes exactly one artifact, and
the output can be shorter than the input. -/
theorem CreateSpectrograms_best_effort (mel : List (List ℚ) → Mat)
    (files : List AudioFile) :
    (CreateSpectrograms mel files = files.filterMap (tryProcessFile mel)) ∧
    ((CreateSpectrograms mel files).length ≤ files.length) ∧
    (∀ f ∈ files, ∀ a : String × Mat, tryProcessFile mel f = some a →
      a ∈ CreateSpectrograms mel files) := by
  have he : CreateSpectrograms mel files = files.filterMap (tryProcessFile mel) := by
    unfold CreateSpectrograms
    simpa using createSpectrograms_foldl mel files []
  refine ⟨he, ?_, ?_⟩
  · rw [he]
    exact List.length_filterMap_le _ _
  · intro f hf a ha
    rw [he]
    exact List.mem_filterMap.mpr ⟨f, hf, ha⟩

/-- Witness for C7: in a batch whose second file fails to decode, the
third file is still processed and its artifact is saved. -/
theorem CreateSpectrograms_best_effort_witness :
    (tryProcessFile mel0 fBad = none) ∧
    (fGood2 ∈ files0) ∧
    (("000777", mel0 wav777) ∈ CreateSpectrograms mel0 files0) := by
  have hm : fGood2 ∈ files0 := by decide
  exact ⟨rfl, hm, (CreateSpectrograms_best_effort mel0 files0).2.2 fGood2 hm
    ("000777", mel0 wav777) rfl⟩

/-- Claim C8: ChargeDataset treats a missing identifier as fatal — if
some artifact identifier occurs nowhere in the identifier sequence the
whole call raises (returns none), with no recovery or skipping — and on
success it pairs each loaded, decibel-converted array with the genre at
the first matching position of the identifier sequence. -/
theorem ChargeDataset_lookup_policy (db : ℚ → ℚ) (arts : List (String × Mat))
    (id_list : List String) (genre_list : List Int) :
    ((∃ a ∈ arts, a.1 ∉ id_list) →
      ChargeDataset db arts id_list genre_list = none) ∧
    (∀ l, ChargeDataset db arts id_list genre_list = some l →
      l.length = arts.length ∧
      ∀ i (hi : i < arts.length), ∃ j g,
        id_list.findIdx? (fun t => t == (arts.get ⟨i, hi⟩).1) = some j ∧
        genre_list[j]? = some g ∧
        l[i]? = some (powerToDbMat db (arts.get ⟨i, hi⟩).2, g)) := by
  constructor
  · rintro ⟨a, ha, hnot⟩
    apply tryAll_eq_none _ arts a ha
    unfold chargeOne findGenre
    rw [findIdx?_eq_none_of_not_mem id_list a.1 hnot 0]
    rfl
  · intro l hl
    obtain ⟨hlen, hpt⟩ := tryAll_eq_some _ arts l hl
    refine ⟨hlen, ?_⟩
    intro i hi
    obtain ⟨b, hb1, hb2⟩ := hpt i hi
    unfold chargeOne at hb1
    obtain ⟨g, hg1, hg2⟩ := Option.map_eq_some'.mp hb1
    unfold findGenre at hg1
    obtain ⟨j, hj1, hj2⟩ := Option.bind_eq_some.mp hg1
    exact ⟨j, g, hj1, hj2, by rw [hb2, hg2]⟩

/-- Witness for C8: a batch holding an unknown identifier raises, and a
batch holding a known identifier pairs the converted array with the genre
at the matching position. -/
theorem ChargeDataset_lookup_policy_witness :
    (ChargeDataset ratId artsBad ids0 genres0 = none) ∧
    (ChargeDataset ratId artsGood ids0 genres0 =
      some [(powerToDbMat ratId matS, 3)]) ∧
    (∃ j g, ids0.findIdx? (fun t => t == idA) = some j ∧
      genres0[j]? = some g ∧
      ([(powerToDbMat ratId matS, 3)] : List (Mat × Int))[0]? =
        some (powerToDbMat ratId matS, g)) := by
  have hgood : ChargeDataset ratId artsGood ids0 genres0 =
      some [(powerToDbMat ratId matS, 3)] := rfl
  refine ⟨?_, hgood, ?_⟩
  · exact (ChargeDataset_lookup_policy ratId artsBad ids0 genres0).1
      ⟨(idC, matS), List.mem_cons_self _ _, by decide⟩
  · exact ((ChargeDataset_lookup_policy ratId artsGood ids0 genres0).2
      [(powerToDbMat ratId matS, 3)] hgood).2 0 (by decide)

/-- A zero percentage masks zero columns. -/
theorem numFreqsToMask_zero (n : Nat) : numFreqsToMask 0 n = 0 := by
  simp [numFreqsToMask]

/-- A zero percentage masks zero rows. -/
theorem numFramesToMask_zero (n : Nat) : numFramesToMask 0 n = 0 := by
  simp [numFramesToMask]

/-- At the maximal time percentage, a 20-row array gets a 5-row band. -/
theorem numFramesToMask_quarter_20 : numFramesToMask (1 / 4) 20 = 5 := by
  have h : Int.floor ((1 / 4 : ℚ) * ((20 : Nat) : ℚ)) = 5 := by norm_num
  rw [numFramesToMask, h]
  rfl

/-- Claim C2 (amended): for every spectrogram and every valid outcome of
the draws, each masking round zeroes one contiguous band of time frames
(columns) of width at most 15 percent of the time-frame count and one
contiguous band of frequency bins (rows) of width at most 25 percent of
the frequency-bin count — the percentages attach to the opposite axes
from the claim because spec_augment unpacks the shape as (frames, freqs)
while the arrays of this repository are (freqs, frames) — with every band
start in range; the augmented array keeps the shape of the source and
differs from it only inside the at most num_mask row bands and num_mask
column bands, whose cells are all zero. -/
theorem spec_augment_masking (m : Mat) (draws : List Draw)
    (h : ∀ d ∈ draws, DrawValid m.rows m.cols d) :
    ((spec_augment draws m).rows = m.rows) ∧
    ((spec_augment draws m).cols = m.cols) ∧
    (∀ d ∈ draws,
      ((numFreqsToMask d.fp m.cols : ℚ) ≤ 3 / 20 * m.cols ∧
        d.f0 + numFreqsToMask d.fp m.cols ≤ m.cols) ∧
      ((numFramesToMask d.tp m.rows : ℚ) ≤ 1 / 4 * m.rows ∧
        d.t0 + numFramesToMask d.tp m.rows ≤ m.rows)) ∧
    (∀ r c, (spec_augment draws m).data r c =
      if coveredB draws m.rows m.cols r c then 0 else m.data r c) := by
  obtain ⟨h1, h2, h3⟩ := maskFold_spec draws m.copy
  refine ⟨h1, h2, ?_, h3⟩
  intro d hd
  obtain ⟨v1, v2, v3, v4, v5, v6⟩ := h d hd
  exact ⟨⟨toNatFloor_mul_le d.fp (3 / 20) m.cols v1 v2, v5⟩,
         ⟨toNatFloor_mul_le d.tp (1 / 4) m.rows v3 v4, v6⟩⟩

/-- Witness for the amended C2 at a concrete 4 x 4 spectrogram and two
valid draws. -/
theorem spec_augment_masking_witness :
    (∀ d ∈ draws4, DrawValid mat4.rows mat4.cols d) ∧
    (((spec_augment draws4 mat4).rows = mat4.rows) ∧
     ((spec_augment draws4 mat4).cols = mat4.cols) ∧
     (∀ d ∈ draws4,
       ((numFreqsToMask d.fp mat4.cols : ℚ) ≤ 3 / 20 * mat4.cols ∧
         d.f0 + numFreqsToMask d.fp mat4.cols ≤ mat4.cols) ∧
       ((numFramesToMask d.tp mat4.rows : ℚ) ≤ 1 / 4 * mat4.rows ∧
         d.t0 + numFramesToMask d.tp mat4.rows ≤ mat4.rows)) ∧
     (∀ r c, (spec_augment draws4 mat4).data r c =
       if coveredB draws4 mat4.rows mat4.cols r c then 0 else mat4.data r c)) := by
  have hv : ∀ d ∈ draws4, DrawValid mat4.rows mat4.cols d := by
    intro d hd
    rcases List.mem_cons.mp hd with rfl | hd2
    · refine ⟨?_, ?_, ?_, ?_, ?_, ?_⟩ <;>
        norm_num [numFreqsToMask, numFramesToMask, mat4]
    · rcases List.mem_cons.mp hd2 with rfl | hd3
      · refine ⟨?_, ?_, ?_, ?_, ?_, ?_⟩ <;>
          norm_num [numFreqsToMask, numFramesToMask, mat4]
      · cases hd3
  exact ⟨hv, spec_augment_masking mat4 draws4 hv⟩

/-- Claim C2 counterexample, refuting the claim as stated: with the valid
draws (freq_percentage 0, time_percentage 1/4) and (0, 0) on a 20 x 20
all-ones spectrogram, no column (time-frame) band is masked, yet the
cell in frequency bin 4 is zeroed while the cell in frequency bin 5 is
untouched: the zeroed contiguous frequency band spans rows 0 to 4, of
width 5, which exceeds 15 percent of the 20 frequency bins — so the
round does not zero a frequency band of width at most 15 percent of the
frequency-bin count as the claim states. -/
theorem spec_augment_claim_counterexample :
    (DrawValid 20 20 drawQuarter) ∧
    (numFreqsToMask drawQuarter.fp 20 = 0) ∧
    (numFramesToMask drawQuarter.tp 20 = 5) ∧
    ((3 / 20 * 20 : ℚ) < (numFramesToMask drawQuarter.tp 20 : ℚ)) ∧
    ((spec_augment [drawQuarter, drawZero] onesMat20).data 4 7 = 0) ∧
    (onesMat20.data 4 7 = 1) ∧
    ((spec_augment [drawQuarter, drawZero] onesMat20).data 5 7 = 1) := by
  have h5 : numFramesToMask (1 / 4 : ℚ) 20 = 5 := numFramesToMask_quarter_20
  have h5q : numFramesToMask ((4 : ℚ)⁻¹) 20 = 5 := by
    have h14 : ((4 : ℚ))⁻¹ = 1 / 4 := by norm_num
    rw [h14]
    exact h5
  refine ⟨?_, ?_, ?_, ?_, ?_, rfl, ?_⟩
  · refine ⟨?_, ?_, ?_, ?_, ?_, ?_⟩ <;>
      norm_num [drawQuarter, numFreqsToMask_zero, h5]
  · show numFreqsToMask 0 20 = 0
    exact numFreqsToMask_zero 20
  · exact h5
  · show (3 / 20 * 20 : ℚ) < (numFramesToMask (1 / 4 : ℚ) 20 : ℚ)
    rw [h5]
    norm_num
  · simp [spec_augment, Mat.copy, maskRound, inBandRow, inBandCol, onesMat20,
      drawQuarter, drawZero, h5, h5q, numFreqsToMask_zero, numFramesToMask_zero]
  · simp [spec_augment, Mat.copy, maskRound, inBandRow, inBandCol, onesMat20,
      drawQuarter, drawZero, h5, h5q, numFreqsToMask_zero, numFramesToMask_zero]
